import Mathlib

/-!
Verification of the profile-update and avatar-update flows of the
gobarber mobile client (src/pages/Profile/index.tsx), as a shallow
embedding: the Yup validation schema, the submission handler and the
avatar permission/upload sequence become executable Lean functions, and
the claims of the specification are settled as theorems about them.
-/

namespace GoBarber

/-- The form data of the profile screen (interface ProfileFormData,
src/pages/Profile/index.tsx lines 33-39).  All five fields are strings;
an empty string plays the part of an absent/blank input. -/
structure ProfileFormData where
  name : String
  email : String
  old_password : String
  password : String
  password_confirmation : String
deriving Repr, DecidableEq

/-- The user record returned by the API and held by the session store.
The spec treats it as opaque with at least an avatar reference; the
concrete fields are irrelevant to the proofs. -/
structure User where
  id : String
  name : String
  email : String
  avatar_url : String
deriving Repr, DecidableEq

/-- The notifications (Alert.alert calls) the two flows can show,
one constructor per distinct alert site in src/pages/Profile/index.tsx. -/
inductive AlertKind where
  | profileUpdated        -- line 102: success alert of handleSubmit
  | profileUpdateError    -- line 117: generic failure alert of handleSubmit
  | permCameraNeeded      -- line 189: camera permission denied
  | permReadNeeded        -- line 198: read-storage permission denied
  | permWriteNeeded       -- line 207: write-storage permission denied
  | avatarPickerError     -- line 230: image chooser reported an error
  | avatarPatchError      -- line 250: PATCH /users/avatar rejected
deriving Repr, DecidableEq

/-- The Yup validation of handleSubmit (lines 56-76), run with
abortEarly:false so every failing rule contributes its own
(field path, message) entry.  Yup email validity is library code, not in
this repository, so it is abstracted as the predicate `emailValid`
(Yup.string().email matches a regex and skips the empty string; the
required test catches the empty string first).

Rule by rule, from the schema:
  * name: required.
  * email: required, then email-valid (skipped on the empty string).
  * old_password: unconstrained.
  * password: required only when old_password is truthy (non-empty).
  * password_confirmation: required only when old_password is truthy;
    and, chained outside the `when`, oneOf([ref(password), null]) which
    Yup applies to every defined value, so it fires exactly when
    password_confirmation differs from password. -/
def validate (emailValid : String → Bool) (d : ProfileFormData) :
    List (String × String) :=
  (if d.name = "" then [("name", "Nome obrigatório")] else [])
    ++ (if d.email = "" then [("email", "E-mail obrigatório")]
        else if emailValid d.email then []
        else [("email", "Digite um e-mail válido")])
    ++ (if d.old_password ≠ "" ∧ d.password = "" then
          [("password", "Campo obrigatório")]
        else [])
    ++ (if d.old_password ≠ "" ∧ d.password_confirmation = "" then
          [("password_confirmation", "Campo obrigatório")]
        else [])
    ++ (if d.password_confirmation ≠ d.password then
          [("password_confirmation", "Confirmação incorreta")]
        else [])

/-- The body sent to PUT /profile (lines 86-96): always name and email,
and the three password fields exactly when old_password is truthy. -/
structure ProfilePayload where
  name : String
  email : String
  passwordChange : Option (String × String × String)
deriving Repr, DecidableEq

/-- Builds the outgoing payload as handleSubmit does (lines 86-96):
`...(old_password ? { old_password, password, password_confirmation } : {})`. -/
def buildPayload (d : ProfileFormData) : ProfilePayload :=
  { name := d.name
    email := d.email
    passwordChange :=
      if d.old_password ≠ "" then
        some (d.old_password, d.password, d.password_confirmation)
      else none }

/-- Everything observable about one run of handleSubmit: the field
errors set on the form, the payload of the PUT call when one was made,
the record passed to updateUser when it was called, the alerts shown,
and whether goBack ran. -/
structure SubmitOutcome where
  fieldErrors : List (String × String)
  payload : Option ProfilePayload
  updatedUser : Option User
  alerts : List AlertKind
  navigatedBack : Bool
deriving Repr, DecidableEq

/-- handleSubmit (lines 51-124).  `apiPut` stands for the outcome of
`api.put(/profile, formData)`.  Validation errors are caught as
Yup.ValidationError and set on the form with no network call; a PUT
failure falls to the generic alert branch with no user update and no
navigation (setErrors({}) at entry leaves the form error-free there). -/
def handleSubmit (emailValid : String → Bool) (d : ProfileFormData)
    (apiPut : Except String User) : SubmitOutcome :=
  let errs := validate emailValid d
  if errs = [] then
    let p := buildPayload d
    match apiPut with
    | Except.ok u =>
        { fieldErrors := []
          payload := some p
          updatedUser := some u
          alerts := [AlertKind.profileUpdated]
          navigatedBack := true }
    | Except.error _ =>
        { fieldErrors := []
          payload := some p
          updatedUser := none
          alerts := [AlertKind.profileUpdateError]
          navigatedBack := false }
  else
    { fieldErrors := errs
      payload := none
      updatedUser := none
      alerts := []
      navigatedBack := false }

/-- Modelled from the spec: the session store hook (src/hooks/auth, not
under src/) exposes updateUser, which "replaces the current user
wholesale" — the new record fully replaces the previous one. -/
def applyUpdateUser (_prev newUser : User) : User := newUser

/-- The three Android permissions of the avatar flow, in the order the
code handles them. -/
inductive Perm where
  | camera
  | readStorage
  | writeStorage
deriving Repr, DecidableEq

/-- The image chooser completion (the ImagePicker.showImagePicker
callback receives a response carrying didCancel, error, or the selected
image fields; lines 226-234 test didCancel first, then error). -/
inductive PickerResponse where
  | didCancel
  | pickError (e : String)
  | selected (mimeType uri fileName : String)
deriving Repr, DecidableEq

/-- The multipart field appended as `avatar` (lines 236-242):
{ type, name: fileName, uri }. -/
structure AvatarUpload where
  mimeType : String
  fileName : String
  uri : String
deriving Repr, DecidableEq

/-- The environment one run of handleUpdateAvatar executes against:
the platform, the result of PermissionsAndroid.check per permission,
the result a PermissionsAndroid.request would return (granted or not),
the image chooser completion, and the outcome of the PATCH call. -/
structure AvatarEnv where
  isAndroid : Bool
  checkPerm : Perm → Bool
  requestPerm : Perm → Bool
  picker : PickerResponse
  apiPatch : Except String User

/-- One permission helper (requestCameraPermissions /
requestReadStoragePermissions / requestWriteStoragePermissions,
lines 130-180): check the permission; when already granted return true,
otherwise request it and return whether the request was granted. -/
def requestPermissionGranted (env : AvatarEnv) (p : Perm) : Bool :=
  if env.checkPerm p then true else env.requestPerm p

/-- Everything observable about one run of handleUpdateAvatar:
which permissions were checked (in order), whether the image chooser
was opened, the multipart body of the PATCH call when one was made,
the record passed to updateUser when it was called, and the alerts. -/
structure AvatarOutcome where
  permsChecked : List Perm
  pickerInvoked : Bool
  patchBody : Option AvatarUpload
  updatedUser : Option User
  alerts : List AlertKind
deriving Repr, DecidableEq

/-- The image chooser callback (lines 226-255): cancellation returns
silently; a chooser error alerts; a selection is packaged and PATCHed,
updating the user on success and alerting on failure.  Returns
(patch body, updated user, alerts raised from the callback on). -/
def pickerCallback (env : AvatarEnv) :
    Option AvatarUpload × Option User × List AlertKind :=
  match env.picker with
  | PickerResponse.didCancel => (none, none, [])
  | PickerResponse.pickError _ => (none, none, [AlertKind.avatarPickerError])
  | PickerResponse.selected t uri f =>
      let body : AvatarUpload := { mimeType := t, fileName := f, uri := uri }
      match env.apiPatch with
      | Except.ok u => (some body, some u, [])
      | Except.error _ => (some body, none, [AlertKind.avatarPatchError])

/-- handleUpdateAvatar (lines 182-262).  On Android the three permission
helpers are all awaited, one after the other, before any result is
examined (lines 184-186); only then are the three grant flags tested in
order, the first false one alerting and returning before the chooser
(lines 188-214).  Off Android the whole permission block is skipped.
Then the image chooser runs with the callback above. -/
def handleUpdateAvatar (env : AvatarEnv) : AvatarOutcome :=
  if env.isAndroid then
    let cameraGranted := requestPermissionGranted env Perm.camera
    let readGranted := requestPermissionGranted env Perm.readStorage
    let writeGranted := requestPermissionGranted env Perm.writeStorage
    let checked := [Perm.camera, Perm.readStorage, Perm.writeStorage]
    if !cameraGranted then
      { permsChecked := checked, pickerInvoked := false, patchBody := none
        updatedUser := none, alerts := [AlertKind.permCameraNeeded] }
    else if !readGranted then
      { permsChecked := checked, pickerInvoked := false, patchBody := none
        updatedUser := none, alerts := [AlertKind.permReadNeeded] }
    else if !writeGranted then
      { permsChecked := checked, pickerInvoked := false, patchBody := none
        updatedUser := none, alerts := [AlertKind.permWriteNeeded] }
    else
      let r := pickerCallback env
      { permsChecked := checked, pickerInvoked := true, patchBody := r.1
        updatedUser := r.2.1, alerts := r.2.2 }
  else
    let r := pickerCallback env
    { permsChecked := [], pickerInvoked := true, patchBody := r.1
      updatedUser := r.2.1, alerts := r.2.2 }

/-! Concrete inputs used by witnesses and counterexamples. -/

/-- A user record as returned by the API. -/
def wUser : User :=
  { id := "u1", name := "Ana", email := "a@x.com"
    avatar_url := "http://x/a.png" }

/-- A different user record, standing for the prior session user. -/
def wPrev : User :=
  { id := "u1", name := "Bea", email := "b@x.com"
    avatar_url := "http://x/b.png" }

/-- Form data with no password change requested. -/
def wData : ProfileFormData :=
  { name := "Ana", email := "a@x.com", old_password := ""
    password := "", password_confirmation := "" }

/-- Form data with a consistent password change requested. -/
def wDataPwd : ProfileFormData :=
  { name := "Ana", email := "a@x.com", old_password := "old"
    password := "new", password_confirmation := "new" }

/-- Form data with a password change whose confirmation mismatches. -/
def wDataMismatch : ProfileFormData :=
  { name := "Ana", email := "a@x.com", old_password := "old"
    password := "new", password_confirmation := "other" }

/-- Form data with an empty name, empty email, a non-empty old password,
an empty new password and a mismatching confirmation: every validation
rule that can fail, fails at once. -/
def wDataAllBad : ProfileFormData :=
  { name := "", email := "", old_password := "old"
    password := "", password_confirmation := "x" }

/-- Form data with a password change whose confirmation was left
blank. -/
def wDataConfirmEmpty : ProfileFormData :=
  { name := "Ana", email := "a@x.com", old_password := "old"
    password := "new", password_confirmation := "" }

/-- Form data with valid name and email, no password change requested
(old_password and password empty) but a non-empty confirmation. -/
def wDataLoneConfirmation : ProfileFormData :=
  { name := "Ana", email := "a@x.com", old_password := ""
    password := "", password_confirmation := "x" }

/-- An Android environment where the camera permission is already
granted but read-storage is denied (not granted and the request is
refused), the scenario of the permission-sequence claim. -/
def envReadDenied : AvatarEnv :=
  { isAndroid := true
    checkPerm := fun p => match p with
      | Perm.camera => true
      | _ => false
    requestPerm := fun _ => false
    picker := PickerResponse.didCancel
    apiPatch := Except.error "never reached" }

/-- A non-Android environment whose image chooser reports cancellation. -/
def envCancel : AvatarEnv :=
  { isAndroid := false
    checkPerm := fun _ => false
    requestPerm := fun _ => false
    picker := PickerResponse.didCancel
    apiPatch := Except.error "never reached" }

/-- A non-Android environment with a selected image whose upload
succeeds. -/
def envUpload : AvatarEnv :=
  { isAndroid := false
    checkPerm := fun _ => false
    requestPerm := fun _ => false
    picker := PickerResponse.selected "image/jpeg" "file:///tmp/a.jpg" "a.jpg"
    apiPatch := Except.ok wUser }

end GoBarber

namespace GoBarber

/-! Helper lemmas shared by the claim theorems. -/

/-- A mismatching confirmation always contributes its error entry,
whatever the other fields hold: the oneOf rule sits outside the `when`. -/
theorem mismatch_mem_validate (emailValid : String → Bool)
    (d : ProfileFormData) (h : d.password_confirmation ≠ d.password) :
    ("password_confirmation", "Confirmação incorreta") ∈
      validate emailValid d := by
  simp [validate, h]

/-- An empty name always contributes its required-field error entry. -/
theorem name_required_mem_validate (emailValid : String → Bool)
    (d : ProfileFormData) (h : d.name = "") :
    ("name", "Nome obrigatório") ∈ validate emailValid d := by
  simp [validate, h]

/-- What the picker callback does when a user record comes out of it:
the PATCH succeeded on a selected image. -/
theorem pickerCallback_user_of_some (env : AvatarEnv) (u : User)
    (h : (pickerCallback env).2.1 = some u) :
    env.apiPatch = Except.ok u ∧ (pickerCallback env).1.isSome = true := by
  unfold pickerCallback at h ⊢
  cases hp : env.picker <;> simp [hp] at h ⊢
  case selected t uri f =>
    cases ha : env.apiPatch <;> simp [ha] at h ⊢
    exact h

/-! The claim theorems. -/

/-- Claim C2: for every ProfileFormData that passes validation, the
payload of the PUT /profile call holds exactly name and email when
old_password is empty, and exactly name, email, old_password, password
and password_confirmation when old_password is non-empty. -/
theorem submit_payload_matches_old_password (emailValid : String → Bool)
    (d : ProfileFormData) (apiPut : Except String User)
    (hv : validate emailValid d = []) :
    (d.old_password = "" →
        (handleSubmit emailValid d apiPut).payload =
          some { name := d.name, email := d.email, passwordChange := none }) ∧
      (d.old_password ≠ "" →
        (handleSubmit emailValid d apiPut).payload =
          some { name := d.name, email := d.email
                 passwordChange :=
                   some (d.old_password, d.password, d.password_confirmation) }) := by
  refine ⟨fun h => ?_, fun h => ?_⟩ <;> cases apiPut <;>
    simp [handleSubmit, hv, buildPayload, h]

/-- Closed witness for C2: the two payload shapes at concrete inputs. -/
theorem submit_payload_matches_old_password_witness :
    (handleSubmit (fun _ => true) wData (Except.ok wUser)).payload =
        some { name := "Ana", email := "a@x.com", passwordChange := none } ∧
      (handleSubmit (fun _ => true) wDataPwd (Except.ok wUser)).payload =
        some { name := "Ana", email := "a@x.com"
               passwordChange := some ("old", "new", "new") } :=
  ⟨(submit_payload_matches_old_password (fun _ => true) wData
      (Except.ok wUser) (by decide)).1 (by decide),
    (submit_payload_matches_old_password (fun _ => true) wDataPwd
      (Except.ok wUser) (by decide)).2 (by decide)⟩

/-- Claim C3: when old_password is non-empty and password differs from
password_confirmation, validation fails with the confirmation-mismatch
error on password_confirmation and no PUT is made. -/
theorem submit_mismatch_blocks_network (emailValid : String → Bool)
    (d : ProfileFormData) (apiPut : Except String User)
    (_h1 : d.old_password ≠ "") (h2 : d.password ≠ d.password_confirmation) :
    ("password_confirmation", "Confirmação incorreta") ∈
        (handleSubmit emailValid d apiPut).fieldErrors ∧
      (handleSubmit emailValid d apiPut).payload = none := by
  have hm := mismatch_mem_validate emailValid d (Ne.symm h2)
  have hne : validate emailValid d ≠ [] := List.ne_nil_of_mem hm
  simp [handleSubmit, hne, hm]

/-- Closed witness for C3 at a concrete mismatching form. -/
theorem submit_mismatch_blocks_network_witness :
    ("password_confirmation", "Confirmação incorreta") ∈
        (handleSubmit (fun _ => true) wDataMismatch
          (Except.ok wUser)).fieldErrors ∧
      (handleSubmit (fun _ => true) wDataMismatch
          (Except.ok wUser)).payload = none :=
  submit_mismatch_blocks_network (fun _ => true) wDataMismatch
    (Except.ok wUser) (by decide) (by decide)

/-- Claim C4 counterexample: with valid name and email and with
old_password and password both empty, validation does NOT succeed for
every value of password_confirmation — a lone non-empty confirmation
fails with the mismatch error, because the oneOf rule is chained outside
the `when` and so applies even when no password change is requested. -/
theorem lone_confirmation_fails_validation :
    validate (fun s => s = "a@x.com") wDataLoneConfirmation =
      [("password_confirmation", "Confirmação incorreta")] := by decide

/-- Claim C4 amended: with valid name and email and empty old_password,
neither password nor password_confirmation is required, but the equality
constraint still applies unconditionally: validation succeeds exactly
when password_confirmation equals password. -/
theorem no_password_change_validates_iff_confirmation_matches
    (emailValid : String → Bool) (d : ProfileFormData)
    (hn : d.name ≠ "") (he : d.email ≠ "")
    (hev : emailValid d.email = true) (hop : d.old_password = "") :
    validate emailValid d = [] ↔ d.password_confirmation = d.password := by
  by_cases hpc : d.password_confirmation = d.password <;>
    simp [validate, hn, he, hev, hop, hpc]

/-- Closed witness for the amended C4 at a concrete form. -/
theorem no_password_change_validates_iff_confirmation_matches_witness :
    validate (fun _ => true) wData = [] ↔
      wData.password_confirmation = wData.password :=
  no_password_change_validates_iff_confirmation_matches (fun _ => true)
    wData (by decide) (by decide) rfl rfl

/-- Claim C5: a successful submission replaces the session user with the
record the API returned — in full, independently of the prior user —
then shows the success alert and navigates back. -/
theorem submit_success_replaces_user_and_navigates
    (emailValid : String → Bool) (d : ProfileFormData) (prev u : User)
    (hv : validate emailValid d = []) :
    handleSubmit emailValid d (Except.ok u) =
        { fieldErrors := [], payload := some (buildPayload d)
          updatedUser := some u, alerts := [AlertKind.profileUpdated]
          navigatedBack := true } ∧
      applyUpdateUser prev u = u := by
  simp [handleSubmit, hv, applyUpdateUser]

/-- Closed witness for C5 at a concrete form and user. -/
theorem submit_success_replaces_user_and_navigates_witness :
    handleSubmit (fun _ => true) wData (Except.ok wUser) =
        { fieldErrors := [], payload := some (buildPayload wData)
          updatedUser := some wUser, alerts := [AlertKind.profileUpdated]
          navigatedBack := true } ∧
      applyUpdateUser wPrev wUser = wUser :=
  submit_success_replaces_user_and_navigates (fun _ => true) wData
    wPrev wUser (by decide)

/-- Claim C6: when validation succeeds but the PUT rejects, only the
generic error alert is shown: the session user is not updated, no
navigation happens and no field errors are set. -/
theorem submit_network_failure_mutates_nothing
    (emailValid : String → Bool) (d : ProfileFormData) (e : String)
    (hv : validate emailValid d = []) :
    handleSubmit emailValid d (Except.error e) =
      { fieldErrors := [], payload := some (buildPayload d)
        updatedUser := none, alerts := [AlertKind.profileUpdateError]
        navigatedBack := false } := by
  simp [handleSubmit, hv]

/-- Closed witness for C6 at a concrete form and failure. -/
theorem submit_network_failure_mutates_nothing_witness :
    handleSubmit (fun _ => true) wData (Except.error "boom") =
      { fieldErrors := [], payload := some (buildPayload wData)
        updatedUser := none, alerts := [AlertKind.profileUpdateError]
        navigatedBack := false } :=
  submit_network_failure_mutates_nothing (fun _ => true) wData "boom"
    (by decide)

/-- Claim C7: validation collects every failing rule in one pass — each
invalid field contributes its own entry, and in particular an empty name
always yields the name required-field error, whatever the other fields. -/
theorem validate_collects_every_error (emailValid : String → Bool)
    (d : ProfileFormData) :
    (d.name = "" → ("name", "Nome obrigatório") ∈ validate emailValid d) ∧
      (d.email = "" →
        ("email", "E-mail obrigatório") ∈ validate emailValid d) ∧
      (d.old_password ≠ "" → d.password = "" →
        ("password", "Campo obrigatório") ∈ validate emailValid d) ∧
      (d.old_password ≠ "" → d.password_confirmation = "" →
        ("password_confirmation", "Campo obrigatório") ∈
          validate emailValid d) ∧
      (d.password_confirmation ≠ d.password →
        ("password_confirmation", "Confirmação incorreta") ∈
          validate emailValid d) := by
  refine ⟨fun h => name_required_mem_validate emailValid d h,
    fun h => by simp [validate, h],
    fun h1 h2 => by simp [validate, h1, h2],
    fun h1 h2 => by simp [validate, h1, h2],
    fun h => mismatch_mem_validate emailValid d h⟩

/-- Closed witness for C7: a form violating every rule at once receives
all the corresponding entries. -/
theorem validate_collects_every_error_witness :
    ("name", "Nome obrigatório") ∈ validate (fun _ => true) wDataAllBad ∧
      ("email", "E-mail obrigatório") ∈
        validate (fun _ => true) wDataAllBad ∧
      ("password", "Campo obrigatório") ∈
        validate (fun _ => true) wDataAllBad ∧
      ("password_confirmation", "Campo obrigatório") ∈
        validate (fun _ => true) wDataConfirmEmpty ∧
      ("password_confirmation", "Confirmação incorreta") ∈
        validate (fun _ => true) wDataAllBad := by
  have h := validate_collects_every_error (fun _ => true) wDataAllBad
  have h2 := validate_collects_every_error (fun _ => true) wDataConfirmEmpty
  exact ⟨h.1 rfl, h.2.1 rfl, h.2.2.1 (by decide) rfl,
    h2.2.2.2.1 (by decide) rfl, h.2.2.2.2 (by decide)⟩

/-- Claim C1 counterexample: in the Android environment where the
camera permission is granted and read-storage is denied, write-storage
IS checked — the three permission helpers are all awaited before any
result is examined, so a denial does not stop the later checks. -/
theorem write_storage_checked_despite_read_denial :
    requestPermissionGranted envReadDenied Perm.camera = true ∧
      requestPermissionGranted envReadDenied Perm.readStorage = false ∧
      Perm.writeStorage ∈
        (handleUpdateAvatar envReadDenied).permsChecked := by decide

/-- Claim C1 amended: on Android with camera granted and read-storage
denied, the flow aborts before the image chooser with the read-storage
alert and makes no upload — but only after all three permissions,
write-storage included, have been checked (and requested when absent). -/
theorem read_denial_aborts_after_all_checks (env : AvatarEnv)
    (ha : env.isAndroid = true)
    (hc : requestPermissionGranted env Perm.camera = true)
    (hr : requestPermissionGranted env Perm.readStorage = false) :
    handleUpdateAvatar env =
      { permsChecked := [Perm.camera, Perm.readStorage, Perm.writeStorage]
        pickerInvoked := false, patchBody := none, updatedUser := none
        alerts := [AlertKind.permReadNeeded] } := by
  simp [handleUpdateAvatar, ha, hc, hr]

/-- Closed witness for the amended C1 at the concrete environment. -/
theorem read_denial_aborts_after_all_checks_witness :
    handleUpdateAvatar envReadDenied =
      { permsChecked := [Perm.camera, Perm.readStorage, Perm.writeStorage]
        pickerInvoked := false, patchBody := none, updatedUser := none
        alerts := [AlertKind.permReadNeeded] } :=
  read_denial_aborts_after_all_checks envReadDenied rfl (by decide)
    (by decide)

/-- Claim C8: off Android no permission is ever checked or requested and
the image chooser is always opened. -/
theorem non_android_skips_all_permissions (env : AvatarEnv)
    (h : env.isAndroid = false) :
    (handleUpdateAvatar env).permsChecked = [] ∧
      (handleUpdateAvatar env).pickerInvoked = true := by
  simp [handleUpdateAvatar, h]

/-- Closed witness for C8 at the concrete non-Android environment. -/
theorem non_android_skips_all_permissions_witness :
    (handleUpdateAvatar envCancel).permsChecked = [] ∧
      (handleUpdateAvatar envCancel).pickerInvoked = true :=
  non_android_skips_all_permissions envCancel rfl

/-- Claim C9: when the image chooser was opened and reports
cancellation, the flow ends silently — no alert of any kind is shown
and no PATCH is made. -/
theorem cancellation_is_silent (env : AvatarEnv)
    (hp : env.picker = PickerResponse.didCancel)
    (hi : (handleUpdateAvatar env).pickerInvoked = true) :
    (handleUpdateAvatar env).alerts = [] ∧
      (handleUpdateAvatar env).patchBody = none := by
  have hcb : pickerCallback env = (none, none, []) := by
    simp [pickerCallback, hp]
  cases hA : env.isAndroid
  case false => simp [handleUpdateAvatar, hA, hcb]
  case true =>
    cases hc : requestPermissionGranted env Perm.camera
    case false => simp [handleUpdateAvatar, hA, hc] at hi
    case true =>
      cases hr : requestPermissionGranted env Perm.readStorage
      case false => simp [handleUpdateAvatar, hA, hc, hr] at hi
      case true =>
        cases hw : requestPermissionGranted env Perm.writeStorage
        case false => simp [handleUpdateAvatar, hA, hc, hr, hw] at hi
        case true => simp [handleUpdateAvatar, hA, hc, hr, hw, hcb]

/-- Closed witness for C9 at the concrete cancelling environment. -/
theorem cancellation_is_silent_witness :
    (handleUpdateAvatar envCancel).alerts = [] ∧
      (handleUpdateAvatar envCancel).patchBody = none :=
  cancellation_is_silent envCancel rfl (by decide)

/-- Claim C10: the avatar flow updates the session user only when an
upload succeeded — whenever updateUser received a record, the PATCH
returned exactly that record, a body had been uploaded and the chooser
had been opened; on every other outcome the session user is untouched. -/
theorem avatar_updates_user_only_on_success (env : AvatarEnv) (u : User)
    (h : (handleUpdateAvatar env).updatedUser = some u) :
    env.apiPatch = Except.ok u ∧
      (handleUpdateAvatar env).patchBody.isSome = true ∧
      (handleUpdateAvatar env).pickerInvoked = true := by
  cases hA : env.isAndroid
  case false =>
    simp only [handleUpdateAvatar, hA, Bool.false_eq_true, if_false] at h ⊢
    exact ⟨(pickerCallback_user_of_some env u h).1,
      (pickerCallback_user_of_some env u h).2, trivial⟩
  case true =>
    cases hc : requestPermissionGranted env Perm.camera
    case false => simp [handleUpdateAvatar, hA, hc] at h
    case true =>
      cases hr : requestPermissionGranted env Perm.readStorage
      case false => simp [handleUpdateAvatar, hA, hc, hr] at h
      case true =>
        cases hw : requestPermissionGranted env Perm.writeStorage
        case false => simp [handleUpdateAvatar, hA, hc, hr, hw] at h
        case true =>
          simp only [handleUpdateAvatar, hA, hc, hr, hw, Bool.not_true,
            Bool.false_eq_true, if_false, if_true] at h ⊢
          exact ⟨(pickerCallback_user_of_some env u h).1,
            (pickerCallback_user_of_some env u h).2, trivial⟩

/-- Closed witness for C10 at the concrete successful upload. -/
theorem avatar_updates_user_only_on_success_witness :
    envUpload.apiPatch = Except.ok wUser ∧
      (handleUpdateAvatar envUpload).patchBody.isSome = true ∧
      (handleUpdateAvatar envUpload).pickerInvoked = true :=
  avatar_updates_user_only_on_success envUpload wUser (by decide)

end GoBarber
